import Mathlib

/-!
Shallow embedding of the Inventory Reconciliation Engine of the repository
(source: the main application component; handlers `handleFileImport`,
`handleFileImportForExcelCheck`, `handleSearchSubmit`, `handleScanSubmit`,
`handleCheckItem`, `excelCheckStats`, helpers `parseFormattedNumber`,
`findValue`, `getCategoryFromProductName`).

Modeling conventions:
- JavaScript strings are Lean `String`s; all string operations are defined
  here over `String.data` (`List Char`) so that every definition is
  executable and kernel-reducible.  `toLowerCL` maps `Char.toLower`, which
  lowercases ASCII letters only; JavaScript `toLowerCase` also lowercases
  non-ASCII letters, but every key and query these claims quantify over or
  evaluate at is untouched by that difference (the Vietnamese alias strings
  below contain no non-ASCII uppercase letters).
- A JavaScript value that may be `undefined` is an `Option`; JS truthiness
  of a string-or-undefined value is `truthy` (`undefined` and `""` falsy).
- A JavaScript number that may be `NaN` is an `Option Int` with `none` for
  `NaN`; arithmetic on it propagates `none` like NaN, and `NaN === 0` is
  false.  `jsNumber` models `Number()` conversion on the fragment of inputs
  that are (after trimming) empty or optionally-signed decimal-digit
  strings, returning `none` exactly where JS yields `NaN` on that fragment;
  non-integral numeric literals are outside the modeled fragment and no
  claim is evaluated on them.
- React `useState` cells touched by a handler are gathered into explicit
  state structures; purely visual state (suggestion-dropdown visibility,
  the one-second highlight timer, DOM focus and scrolling) is modeled only
  where a claim mentions it (`lastScannedIndex`) and omitted otherwise.
-/

namespace DataHome

/-- JS whitespace test used by `trim` (ASCII fragment, which covers every
input considered here). -/
def isWS (c : Char) : Bool := c == ' ' || c == '\t' || c == '\n' || c == '\r'

/-- `String.prototype.trim`, over the character list. -/
def trimCL (l : List Char) : List Char :=
  ((l.dropWhile isWS).reverse.dropWhile isWS).reverse

/-- `String.prototype.trim`. -/
def jsTrim (s : String) : String := String.mk (trimCL s.data)

/-- `String.prototype.toLowerCase` (ASCII fragment, see header). -/
def toLowerCL (l : List Char) : List Char := l.map Char.toLower

/-- `String.prototype.toLowerCase`. -/
def jsToLower (s : String) : String := String.mk (toLowerCL s.data)

/-- `a.isPrefixOf b` over character lists (kernel-reducible). -/
def isPrefixCL : List Char → List Char → Bool
  | [], _ => true
  | _ :: _, [] => false
  | a :: as, b :: bs => a == b && isPrefixCL as bs

/-- `String.prototype.includes` over character lists: `needle` occurs as a
contiguous substring of `hay`. -/
def containsCL : List Char → List Char → Bool
  | n, [] => n.isEmpty
  | n, c :: t => isPrefixCL n (c :: t) || containsCL n t

/-- `hay.includes(needle)` for strings. -/
def jsIncludes (hay needle : String) : Bool := containsCL needle.data hay.data

/-- `s.startsWith(p)`. -/
def jsStartsWith (s p : String) : Bool := isPrefixCL p.data s.data

/-- `s.startsWith("'") ? s.substring(1) : s` — the leading quote-marker
strip applied to identifier fields throughout the source. -/
def stripLeadingQuote (s : String) : String :=
  match s.data with
  | '\'' :: rest => String.mk rest
  | _ => s

/-- JS truthiness of a string-or-undefined value: `undefined` and `""` are
falsy, every other string truthy. -/
def truthy : Option String → Bool
  | none => false
  | some s => !s.isEmpty

/-- `String(x || d)` for a string-or-undefined `x` and default literal `d`. -/
def jsOrString (x : Option String) (d : String) : String :=
  match x with
  | none => d
  | some s => if s.isEmpty then d else s

/-- `a || b` on two string-or-undefined values (first truthy operand). -/
def jsOr2 (a b : Option String) : Option String := if truthy a then a else b

/-- Value of a digit-character list read as a base-10 numeral. -/
def digitsToNat (l : List Char) : Nat :=
  l.foldl (fun acc c => acc * 10 + (c.toNat - 48)) 0

/-- `String(value).replace(/\D/g, '')` — keep only ASCII digits. -/
def stripNonDigits (s : String) : String := String.mk (s.data.filter Char.isDigit)

/-- `parseInt(s, 10)` on an all-digit string: `NaN` (`none`) exactly when
the string is empty. -/
def parseIntDigits (s : String) : Option Nat :=
  match s.data with
  | [] => none
  | _ => some (digitsToNat s.data)

/-- Source `parseFormattedNumber`: strip every non-digit character, then
`parseInt`; `NaN` becomes `0`. -/
def parseFormattedNumber (s : String) : Nat :=
  match parseIntDigits (stripNonDigits s) with
  | none => 0
  | some n => n

/-- `String(value).replace(/,/g, '')`. -/
def stripCommas (s : String) : String := String.mk (s.data.filter (fun c => c != ','))

/-- `Number(s)` on the modeled fragment (see header): trimmed-empty gives
`0`, an optionally-signed decimal-digit string gives its value, and any
other string in the fragment gives `NaN` (`none`). -/
def jsNumber (s : String) : Option Int :=
  let t := trimCL s.data
  if t.isEmpty then some 0
  else if t.all Char.isDigit then some (digitsToNat t)
  else match t with
    | '-' :: rest => if rest.isEmpty || !rest.all Char.isDigit then none
                     else some (-(digitsToNat rest : Int))
    | _ => none

/-- `NaN`-propagating addition on JS numbers. -/
def jsAdd : Option Int → Option Int → Option Int
  | some a, some b => some (a + b)
  | _, _ => none

/-- `NaN`-propagating subtraction on JS numbers. -/
def jsSub : Option Int → Option Int → Option Int
  | some a, some b => some (a - b)
  | _, _ => none

/-- `x || 0` for a number-or-null JS value (both `null` and `0` give `0`). -/
def jsOrZero : Option Int → Int
  | none => 0
  | some n => n

/-! ### Row model and `findValue` -/

/-- A spreadsheet row as delivered by `sheet_to_json({ raw: false })`: an
ordered association of column-header text to cell text, a cell being absent
(`undefined`) when the header is missing from the row. -/
abbrev Row := List (String × String)

/-- Source `findValue`: for each target key in order, scan the row's keys
for a case-insensitive, trimmed match; the first target key that matches
any row key wins; `undefined` when none does. -/
def findValue (row : Row) : List String → Option String
  | [] => none
  | k :: ks =>
    match row.find? (fun p => toLowerCL p.1.data |> trimCL |> (· == (toLowerCL k.data |> trimCL))) with
    | some p => some p.2
    | none => findValue row ks

/-! ### Category derivation -/

/-- JS `\w` word character (`[A-Za-z0-9_]`). -/
def isWordChar (c : Char) : Bool := c.isAlphanum || c == '_'

/-- Whether the character just before a candidate match site is a word
boundary (`none` = start of string). -/
def boundaryBefore : Option Char → Bool
  | none => true
  | some c => !isWordChar c

/-- Whether the position after a candidate match is a word boundary. -/
def boundaryAfter : List Char → Bool
  | [] => true
  | c :: _ => !isWordChar c

/-- `/\btv\b/.test(s)`: an occurrence of `tv` flanked by word boundaries. -/
def hasWordTVAux : Option Char → List Char → Bool
  | prev, 't' :: 'v' :: rest =>
      (boundaryBefore prev && boundaryAfter rest) || hasWordTVAux (some 't') ('v' :: rest)
  | _, c :: rest => hasWordTVAux (some c) rest
  | _, [] => false

/-- `/\btv\b/.test(s)`. -/
def hasWordTV (l : List Char) : Bool := hasWordTVAux none l

/-- Source `getCategoryFromProductName`: keyword classification of a
product name (`/^(tivi|ti vi|tv)/` or `/\btv\b/`, then substring keys),
with sentinel `"default"`. -/
def getCategoryFromProductName (name : String) : String :=
  if name.isEmpty then "default"
  else
    let lowerName := jsTrim (jsToLower name)
    if lowerName.isEmpty then "default"
    else if jsStartsWith lowerName "tivi" || jsStartsWith lowerName "ti vi" ||
            jsStartsWith lowerName "tv" || hasWordTV lowerName.data then "tivi"
    else if jsIncludes lowerName "tủ lạnh" then "tủ lạnh"
    else if jsIncludes lowerName "máy giặt" then "máy giặt"
    else if jsIncludes lowerName "máy lạnh" || jsIncludes lowerName "điều hòa" then "máy lạnh"
    else if jsIncludes lowerName "điện thoại" then "điện thoại"
    else if jsIncludes lowerName "loa" then "loa"
    else "default"

/-! ### Record Loader (`handleFileImport` row mapping) -/

/-- Source `InventoryItem`.  `quantity` is a JS number that the loader can
leave as `NaN` (`none`), see `loadInventoryRow`. -/
structure InventoryItem where
  qrCode : String
  productCodeForSearch : String
  productName : String
  quantity : Option Int
  price : Nat
  checked : Bool
  hasImei : Bool
  status : String
  category : String
deriving DecidableEq, Repr

/-- The row-to-record mapping inside `handleFileImport` (the engine's
Record Loader for the inventory-check page), field by field. -/
def loadInventoryRow (row : Row) : InventoryItem :=
  let imei := findValue row ["IMEI_1"]
  let productCode := findValue row ["Mã sản phẩm"]
  let productName := findValue row ["Tên sản phẩm"]
  let quantity := findValue row ["Số lượng"]
  let status := findValue row ["trạng thái sản phẩm"]
  let originalCategory := findValue row ["Ngành hàng"]
  let priceString := jsOrString (findValue row ["Giá bán", "Giá"]) "0"
  let derivedCategory := getCategoryFromProductName (jsOrString productName "")
  let finalCategory := if derivedCategory ≠ "default" then derivedCategory
                       else jsOrString originalCategory "N/A"
  let rawQrCodeValue := stripLeadingQuote (jsTrim (jsOrString (jsOr2 imei productCode) ""))
  let rawProductCodeValue := stripLeadingQuote (jsTrim (jsOrString productCode ""))
  { qrCode := rawQrCodeValue
    productCodeForSearch := rawProductCodeValue
    productName := jsOrString productName "N/A"
    quantity := jsNumber (stripCommas (jsOrString quantity "0"))
    price := parseFormattedNumber priceString
    checked := false
    hasImei := truthy imei
    status := jsOrString status "N/A"
    category := finalCategory }

/-- `json.map(...)` over the sheet rows: the loader maps every row. -/
def loadInventory (rows : List Row) : List InventoryItem := rows.map loadInventoryRow

/-! ### Record Loader (`handleFileImportForExcelCheck` row mapping) -/

/-- Source `ExcelCheckItem`.  `actualQuantity` is `null` (`none`) until
first counted; `fileQuantity` is a JS number that can be `NaN`. -/
structure ExcelCheckItem where
  productCode : String
  productName : String
  fileQuantity : Option Int
  actualQuantity : Option Int
  imei : Option String
  category : String
deriving DecidableEq, Repr

/-- The row-to-record mapping inside `handleFileImportForExcelCheck`
(the Record Loader for the count-mode transfer-check page). -/
def loadExcelCheckRow (row : Row) : ExcelCheckItem :=
  let productCode := stripLeadingQuote (jsTrim (jsOrString (findValue row ["Mã sản phẩm"]) "N/A"))
  let productName := findValue row ["Tên sản phẩm"]
  let quantity := findValue row ["Số lượng"]
  let imei0 := findValue row ["IMEI_1"]
  let imei1 : Option String :=
    if truthy imei0 then some (stripLeadingQuote (jsTrim (jsOrString imei0 "")))
    else imei0
  let imeiFinal := if truthy imei1 then imei1 else none
  let originalCategory := findValue row ["Ngành hàng"]
  let derivedCategory := getCategoryFromProductName (jsOrString productName "")
  let finalCategory := if derivedCategory ≠ "default" then derivedCategory
                       else jsOrString originalCategory "N/A"
  { productCode := productCode
    productName := jsOrString productName "N/A"
    fileQuantity := jsNumber (stripCommas (jsOrString quantity "0"))
    actualQuantity := none
    imei := imeiFinal
    category := finalCategory }

/-- `json.map(...)` over the sheet rows for the transfer-check page. -/
def loadExcelCheck (rows : List Row) : List ExcelCheckItem := rows.map loadExcelCheckRow

/-! ### Count-mode scan (`handleScanSubmit`) -/

/-- Status line shown after a scan (`scanStatus` state cell). -/
inductive ScanStatusType | idle | success | error
deriving DecidableEq, Repr

/-- `{type, message}` value of the `scanStatus` state cell. -/
structure ScanStatus where
  type : ScanStatusType
  message : String
deriving DecidableEq, Repr

/-- The state cells `handleScanSubmit` reads or writes. -/
structure ExcelCheckState where
  excelCheckItems : List ExcelCheckItem
  scanQuery : String
  scanStatus : ScanStatus
  lastScannedIndex : Option Nat
deriving DecidableEq, Repr

/-- Source `cleanString` (local to `handleScanSubmit`): falsy gives `""`,
else trim, strip one leading quote marker, lowercase. -/
def cleanString (s : Option String) : String :=
  match s with
  | none => ""
  | some str => if str.isEmpty then "" else jsToLower (stripLeadingQuote (jsTrim str))

/-- Query sanitization in `handleScanSubmit`: strip one leading quote
marker from the (already trimmed) query, then lowercase. -/
def sanitizeScanQuery (query : String) : String := jsToLower (stripLeadingQuote query)

/-- The two-stage index lookup of `handleScanSubmit`: first `findIndex` on
the cleaned product code, and only when that misses, `findIndex` on the
cleaned IMEI. -/
def scanFoundIndex (items : List ExcelCheckItem) (sanitizedQuery : String) : Option Nat :=
  match items.findIdx? (fun item => cleanString (some item.productCode) == sanitizedQuery) with
  | some i => some i
  | none => items.findIdx? (fun item => cleanString item.imei == sanitizedQuery)

/-- Source `handleScanSubmit`: trim the query (empty is a no-op), sanitize,
resolve via `scanFoundIndex`; on a hit increment that record's
`actualQuantity` (`(x || 0) + 1`), set the success status and the highlight
index, on a miss set the error status; either way clear the input. -/
def handleScanSubmit (st : ExcelCheckState) : ExcelCheckState :=
  let query := jsTrim st.scanQuery
  if query.isEmpty then st
  else
    let sanitizedQuery := sanitizeScanQuery query
    match scanFoundIndex st.excelCheckItems sanitizedQuery with
    | some i =>
      match st.excelCheckItems.get? i with
      | some itemToUpdate =>
        let updated := { itemToUpdate with
                         actualQuantity := some (jsOrZero itemToUpdate.actualQuantity + 1) }
        { excelCheckItems := st.excelCheckItems.set i updated
          scanQuery := ""
          scanStatus := { type := .success, message := "Đã cập nhật: " ++ itemToUpdate.productName }
          lastScannedIndex := some i }
      | none => st
    | none =>
      { st with
        scanQuery := ""
        scanStatus := { type := .error, message := "Không tìm thấy sản phẩm với mã: " ++ query } }

/-- One operator scan: type `q` into the scan box and submit. -/
def scanStep (st : ExcelCheckState) (q : String) : ExcelCheckState :=
  handleScanSubmit { st with scanQuery := q }

/-- Submit the same scan query `n` times in a row. -/
def scanN (st : ExcelCheckState) (q : String) : Nat → ExcelCheckState
  | 0 => st
  | n + 1 => scanN (scanStep st q) q n

/-- Submit a list of scan queries in order. -/
def scanMany (st : ExcelCheckState) (qs : List String) : ExcelCheckState :=
  qs.foldl scanStep st

/-! ### Discrepancy Aggregator (`excelCheckStats`) -/

/-- The accumulator/result of `excelCheckStats`. -/
structure ExcelCheckStats where
  totalFileQuantity : Option Int
  totalActualQuantity : Int
  matchedCount : Nat
  mismatchedCount : Nat
deriving DecidableEq, Repr

/-- One step of the `reduce` in `excelCheckStats`. -/
def excelCheckStatsStep (acc : ExcelCheckStats) (item : ExcelCheckItem) : ExcelCheckStats :=
  let acc := { acc with totalFileQuantity := jsAdd acc.totalFileQuantity item.fileQuantity }
  match item.actualQuantity with
  | none => acc
  | some a =>
    let acc := { acc with totalActualQuantity := acc.totalActualQuantity + a }
    let difference := jsSub (some a) item.fileQuantity
    if difference == some 0 then { acc with matchedCount := acc.matchedCount + 1 }
    else { acc with mismatchedCount := acc.mismatchedCount + 1 }

/-- Source `excelCheckStats`: a `reduce` over the items from the zero
accumulator.  `totalFileQuantity` uses NaN-propagating addition because a
`fileQuantity` can be `NaN`; a `NaN` difference compares unequal to `0` and
therefore lands in `mismatchedCount`, as in JS. -/
def excelCheckStats (items : List ExcelCheckItem) : ExcelCheckStats :=
  items.foldl excelCheckStatsStep
    { totalFileQuantity := some 0, totalActualQuantity := 0, matchedCount := 0, mismatchedCount := 0 }

/-! ### Free-text search (`handleSearchSubmit`) -/

/-- The state cells `handleSearchSubmit` reads or writes (the
suggestion-dropdown visibility flag is purely visual and omitted).  A
history entry pairs the literal trimmed query with the found record or
`null`. -/
structure SearchState where
  inventoryItems : List InventoryItem
  searchQuery : String
  searchHistory : List (String × Option InventoryItem)
deriving DecidableEq, Repr

/-- The per-item condition of the `find` in `handleSearchSubmit`: the item's
`qrCode` or its product code (truthiness-guarded, trimmed, lowercased)
equals the query — a single disjunction, with no priority between the two
keys. -/
def searchKeyMatch (query : String) (item : InventoryItem) : Bool :=
  (!item.qrCode.isEmpty && (jsToLower (jsTrim item.qrCode) == query)) ||
  (!item.productCodeForSearch.isEmpty && (jsToLower (jsTrim item.productCodeForSearch) == query))

/-- The record-matching pass of `handleSearchSubmit`: first `find` over the
items matching either key exactly, then — only when that misses — the first
display-name substring match. -/
def searchFoundItem (items : List InventoryItem) (query : String) : Option InventoryItem :=
  match items.find? (searchKeyMatch query) with
  | some x => some x
  | none => (items.filter (fun item => jsIncludes (jsToLower item.productName) query)).head?

/-- Source `handleSearchSubmit`: empty trimmed query is a no-op; otherwise
resolve the lowercased trimmed query, prepend `{query: trimmed, result}` to
the history and clear the input. -/
def handleSearchSubmit (st : SearchState) : SearchState :=
  if (jsTrim st.searchQuery).isEmpty then st
  else
    let query := jsToLower (jsTrim st.searchQuery)
    let foundItem := searchFoundItem st.inventoryItems query
    { st with
      searchHistory := (jsTrim st.searchQuery, foundItem) :: st.searchHistory
      searchQuery := "" }

/-! ### Checklist toggle, filters and navigation (`handleCheckItem`) -/

/-- The three filter state cells of the inventory-check page, kept as the
raw strings the source compares against. -/
structure Filters where
  imeiFilter : String
  statusFilter : String
  categoryFilter : String
deriving DecidableEq, Repr

/-- The IMEI-presence filter predicate (`'all' | 'with_imei' |
'without_imei'`, anything else passes). -/
def passesImeiFilter (f : String) (item : InventoryItem) : Bool :=
  if f == "all" then true
  else if f == "with_imei" then item.hasImei
  else if f == "without_imei" then !item.hasImei
  else true

/-- The filtered view shared by `filteredInventoryItems` and
`handleCheckItem`: attach original indices, then the three AND-composed
filters in source order.  An element is `(originalIndex, item)`. -/
def filteredItems (items : List InventoryItem) (f : Filters) : List (Nat × InventoryItem) :=
  (((items.enum.filter (fun p => passesImeiFilter f.imeiFilter p.2)).filter
      (fun p => if f.statusFilter == "all" then true else p.2.status == f.statusFilter)).filter
      (fun p => if f.categoryFilter == "all" then true else p.2.category == f.categoryFilter))

/-- The toggle in `handleCheckItem`: map over the items flipping `checked`
at `originalIndex` only. -/
def toggleChecked (items : List InventoryItem) (originalIndex : Nat) : List InventoryItem :=
  items.mapIdx (fun i item => if i = originalIndex then { item with checked := !item.checked } else item)

/-- The two `for` loops of `handleCheckItem`: first index `i` with
`lo ≤ i < hi` whose item in `l` is unchecked. -/
def findUncheckedInRange (l : List (Nat × InventoryItem)) (lo hi : Nat) : Option Nat :=
  (List.range' lo (hi - lo)).find? (fun i =>
    match l.get? i with
    | some p => !p.2.checked
    | none => false)

/-- The navigation part of `handleCheckItem`: on the post-toggle items,
compute the filtered subset, locate the toggled record in it (absent means
no-op), then search forward from the next position, wrapping to the start,
for the first unchecked record; the result is that record's original index
(the element scrolled to), `none` for a no-op. -/
def handleCheckItemTarget (items : List InventoryItem) (f : Filters) (originalIndex : Nat) : Option Nat :=
  let newItems := toggleChecked items originalIndex
  let futureFiltered := filteredItems newItems f
  match futureFiltered.findIdx? (fun p => p.1 == originalIndex) with
  | none => none
  | some currentFilteredIndex =>
    let next :=
      match findUncheckedInRange futureFiltered (currentFilteredIndex + 1) futureFiltered.length with
      | some i => some i
      | none => findUncheckedInRange futureFiltered 0 currentFilteredIndex
    match next with
    | some i => (futureFiltered.get? i).map (fun p => p.1)
    | none => none

/-- The `mismatchedItems` memo: records already counted whose actual
quantity differs from the file quantity, in load order. -/
def mismatchedItems (items : List ExcelCheckItem) : List ExcelCheckItem :=
  items.filter (fun item => item.actualQuantity.isSome && item.actualQuantity != item.fileQuantity)

/-- Following the spec's words (§4.6, "count of matched / surplus /
deficit records"): the number of records classified `deficit`, i.e. with
non-null actual quantity and `difference < 0`.  Compared against the
aggregator actually in the code, which has no such field. -/
def specDeficitCount (items : List ExcelCheckItem) : Nat :=
  items.countP (fun item =>
    match item.actualQuantity, item.fileQuantity with
    | some a, some f => decide (a < f)
    | _, _ => false)

/-! ### General facts about `List.findIdx?` and `List.find?` used below -/

theorem findIdx?_some_spec {α : Type} (p : α → Bool) :
    ∀ (l : List α) (s i : Nat), List.findIdx? p l s = some i →
      s ≤ i ∧ ∃ a, l.get? (i - s) = some a ∧ p a = true ∧
        ∀ j b, j < i - s → l.get? j = some b → p b = false := by
  intro l
  induction l with
  | nil => intro s i h; simp [List.findIdx?_nil] at h
  | cons x xs ih =>
    intro s i h
    rw [List.findIdx?_cons] at h
    by_cases hpx : p x = true
    · rw [if_pos hpx] at h
      cases h
      refine ⟨le_refl s, x, ?_, hpx, ?_⟩
      · simp
      · intro j b hj _; omega
    · rw [if_neg hpx] at h
      obtain ⟨hsi, a, hget, hpa, hmin⟩ := ih (s + 1) i h
      refine ⟨by omega, a, ?_, hpa, ?_⟩
      · have : i - s = (i - (s + 1)) + 1 := by omega
        rw [this, List.get?_cons_succ]
        exact hget
      · intro j b hj hb
        cases j with
        | zero =>
          rw [List.get?_cons_zero] at hb
          cases hb
          simpa using hpx
        | succ j' =>
          rw [List.get?_cons_succ] at hb
          exact hmin j' b (by omega) hb

theorem findIdx?_exists_le {α : Type} (p : α → Bool) :
    ∀ (l : List α) (j : Nat) (a : α), l.get? j = some a → p a = true →
      ∀ s, ∃ m, List.findIdx? p l s = some m ∧ s ≤ m ∧ m - s ≤ j := by
  intro l
  induction l with
  | nil => intro j a hj _ _; simp at hj
  | cons x xs ih =>
    intro j a hj hp s
    rw [List.findIdx?_cons]
    by_cases hpx : p x = true
    · exact ⟨s, by rw [if_pos hpx], le_refl s, by omega⟩
    · cases j with
      | zero =>
        rw [List.get?_cons_zero] at hj
        cases hj
        exact absurd hp hpx
      | succ j' =>
        rw [List.get?_cons_succ] at hj
        obtain ⟨m, hm, hsm, hmj⟩ := ih j' a hj hp (s + 1)
        exact ⟨m, by rw [if_neg hpx]; exact hm, by omega, by omega⟩

theorem findIdx?_first_match {α : Type} (p : α → Bool) (l : List α) (i : Nat) (a : α)
    (hi : l.get? i = some a) (hp : p a = true) :
    ∃ m c, l.findIdx? p = some m ∧ m ≤ i ∧ l.get? m = some c ∧ p c = true ∧
      ∀ k d, k < m → l.get? k = some d → p d = false := by
  obtain ⟨m, hm, _, hmi⟩ := findIdx?_exists_le p l i a hi hp 0
  obtain ⟨_, c, hc, hpc, hmin⟩ := findIdx?_some_spec p l 0 m hm
  simp only [Nat.sub_zero] at hc hmin
  exact ⟨m, c, hm, by omega, hc, hpc, hmin⟩

theorem find?_first {α : Type} (p : α → Bool) :
    ∀ (l : List α) (i : Nat) (a : α), l.get? i = some a → p a = true →
      (∀ k b, k < i → l.get? k = some b → p b = false) → l.find? p = some a := by
  intro l
  induction l with
  | nil => intro i a hi _ _; simp at hi
  | cons x xs ih =>
    intro i a hi hp hmin
    cases i with
    | zero =>
      rw [List.get?_cons_zero] at hi
      cases hi
      simp [List.find?_cons, hp]
    | succ i' =>
      rw [List.get?_cons_succ] at hi
      have hpx : p x = false := hmin 0 x (Nat.succ_pos i') List.get?_cons_zero
      rw [List.find?_cons, hpx]
      exact ih i' a hi hp (fun k b hk hb => hmin (k + 1) b (by omega) (by simpa using hb))

theorem findIdx?_set_congr {α : Type} (p : α → Bool) :
    ∀ (l : List α) (n : Nat) (u : α) (s : Nat),
      (∀ a, l.get? n = some a → p u = p a) →
      List.findIdx? p (l.set n u) s = List.findIdx? p l s := by
  intro l
  induction l with
  | nil => intro n u s _; simp
  | cons x xs ih =>
    intro n u s h
    cases n with
    | zero =>
      have hx : p u = p x := h x List.get?_cons_zero
      simp only [List.set_cons_zero, List.findIdx?_cons, hx]
    | succ n' =>
      simp only [List.set_cons_succ, List.findIdx?_cons]
      rw [ih n' u (s + 1) (fun a ha => h a (by simpa using ha))]

end DataHome

namespace DataHome

/-! ## Claim theorems -/

/-- C6: toggling a record's verified flag is an involution — applying the
toggle of `handleCheckItem` twice at the same original index returns every
record (in particular every `checked` flag) to exactly its prior state. -/
theorem toggleChecked_involutive (items : List InventoryItem) (i : Nat) :
    toggleChecked (toggleChecked items i) i = items := by
  apply List.ext_getElem?
  intro n
  simp only [toggleChecked, List.getElem?_mapIdx]
  cases h : items[n]? with
  | none => rfl
  | some a =>
    by_cases hn : n = i
    · subst hn
      cases a
      simp
    · simp [hn]

/-- C2 (amended): the Record Loader produces exactly one record per input
row, in input order, for both pages; a row whose display name is empty or
absent is not dropped — it is loaded with the sentinel display name
`"N/A"`. -/
theorem loader_keeps_all_rows (rows : List Row) :
    (loadInventory rows).length = rows.length ∧
    (loadExcelCheck rows).length = rows.length ∧
    (loadInventory rows).map (fun r => r.productName) =
      rows.map (fun row => jsOrString (findValue row ["Tên sản phẩm"]) "N/A") := by
  refine ⟨by simp [loadInventory], by simp [loadExcelCheck], ?_⟩
  simp only [loadInventory, List.map_map]
  rfl

/-- C2 (counterexample): a row with no display name at all is NOT dropped —
the loaded record list still has one record, carrying the sentinel name
`"N/A"`, on both pages; the claim's "exactly the rows with non-empty
display names" would require the empty list here. -/
theorem loader_drops_nothing_counterexample :
    (loadInventory [[("Mã sản phẩm", "A1")]]).length = 1 ∧
    (loadInventory [[("Mã sản phẩm", "A1")]]).map (fun r => r.productName) = ["N/A"] ∧
    (loadExcelCheck [[("Mã sản phẩm", "A1")]]).map (fun r => r.productName) = ["N/A"] := by
  refine ⟨rfl, by decide, by decide⟩

/-- C4 (amended): the unit price goes through `parseFormattedNumber`, which
equals base-10 reading of the digit characters of the raw value (so a
value with no digit yields `0` and the price is always a well-defined
natural number); the expected quantity instead strips only comma
separators and applies JS `Number` conversion, so a well-formed digit
string loads correctly but a non-numeric value yields `NaN` (`none`), not
zero. -/
theorem numeric_field_parsing (s : String) :
    parseFormattedNumber s = digitsToNat (s.data.filter Char.isDigit) ∧
    (loadInventory [[("Tên sản phẩm", "X"), ("Số lượng", "1,234")]]).map (fun r => r.quantity)
      = [some 1234] ∧
    (loadInventory [[("Tên sản phẩm", "X"), ("Số lượng", "abc")]]).map (fun r => r.quantity)
      = [none] := by
  refine ⟨?_, by decide, by decide⟩
  cases h : s.data.filter Char.isDigit with
  | nil => simp [parseFormattedNumber, parseIntDigits, stripNonDigits, h, digitsToNat]
  | cons c t => simp [parseFormattedNumber, parseIntDigits, stripNonDigits, h]

/-- C4 (counterexample): a quantity cell `"abc"` (from which no integer can
be read) is loaded as `NaN` (`none`) — not as the zero the claim requires,
so the loaded quantity is not always a well-defined integer. -/
theorem quantity_NaN_counterexample :
    (loadInventory [[("Tên sản phẩm", "X"), ("Số lượng", "abc")]]).map (fun r => r.quantity)
      = [none] ∧ (none : Option Int) ≠ some 0 := by
  refine ⟨by decide, by decide⟩

end DataHome

namespace DataHome

/-- C9: a submitted non-empty query matching no record by either key and no
display name by substring produces a history entry pairing the literal
trimmed query with a `null` result; the record list is untouched and there
is no error channel on this page — not-found is a normal outcome. -/
theorem notfound_search_records_null (st : SearchState)
    (hq : (jsTrim st.searchQuery).isEmpty = false)
    (hkey : ∀ item ∈ st.inventoryItems,
      searchKeyMatch (jsToLower (jsTrim st.searchQuery)) item = false)
    (hname : ∀ item ∈ st.inventoryItems,
      jsIncludes (jsToLower item.productName) (jsToLower (jsTrim st.searchQuery)) = false) :
    handleSearchSubmit st =
      { st with
        searchHistory := (jsTrim st.searchQuery, none) :: st.searchHistory
        searchQuery := "" } := by
  have h1 : st.inventoryItems.find? (searchKeyMatch (jsToLower (jsTrim st.searchQuery))) = none :=
    List.find?_eq_none.mpr (fun x hx => by simp [hkey x hx])
  have h2 : st.inventoryItems.filter
      (fun item => jsIncludes (jsToLower item.productName) (jsToLower (jsTrim st.searchQuery))) = [] :=
    List.filter_eq_nil_iff.mpr (fun a ha => by simp [hname a ha])
  simp [handleSearchSubmit, searchFoundItem, hq, h1, h2]

/-- C9 witness: the spec's example — query `"xyz"` against records keyed
`"A1"` and `"B2"` only; the history records `("xyz", null)`. -/
theorem notfound_search_records_null_witness :
    handleSearchSubmit
      { inventoryItems := [⟨"A1", "A1", "Product A", some 1, 0, false, false, "N/A", "N/A"⟩,
                           ⟨"B2", "B2", "Product B", some 1, 0, false, false, "N/A", "N/A"⟩]
        searchQuery := "xyz"
        searchHistory := [] } =
      { inventoryItems := [⟨"A1", "A1", "Product A", some 1, 0, false, false, "N/A", "N/A"⟩,
                           ⟨"B2", "B2", "Product B", some 1, 0, false, false, "N/A", "N/A"⟩]
        searchQuery := ""
        searchHistory := [("xyz", none)] } := by
  rw [notfound_search_records_null _ (by decide) (by decide) (by decide)]
  decide

/-- C10: a scan whose sanitized query matches no record's product code and
no record's IMEI changes no record — the state after the failed scan is
exactly the old one with the scan input cleared and the error status
carrying the raw (trimmed) unmatched query; `lastScannedIndex` and every
item are untouched. -/
theorem failed_scan_atomic (st : ExcelCheckState)
    (hq : (jsTrim st.scanQuery).isEmpty = false)
    (hmiss : ∀ item ∈ st.excelCheckItems,
      cleanString (some item.productCode) ≠ sanitizeScanQuery (jsTrim st.scanQuery) ∧
      cleanString item.imei ≠ sanitizeScanQuery (jsTrim st.scanQuery)) :
    handleScanSubmit st =
      { st with
        scanQuery := ""
        scanStatus := { type := .error
                        message := "Không tìm thấy sản phẩm với mã: " ++ jsTrim st.scanQuery } } := by
  have h1 : st.excelCheckItems.findIdx?
      (fun item => cleanString (some item.productCode) == sanitizeScanQuery (jsTrim st.scanQuery)) = none := by
    rw [List.findIdx?_eq_none_iff]
    intro item hmem
    simpa using (hmiss item hmem).1
  have h2 : st.excelCheckItems.findIdx?
      (fun item => cleanString item.imei == sanitizeScanQuery (jsTrim st.scanQuery)) = none := by
    rw [List.findIdx?_eq_none_iff]
    intro item hmem
    simpa using (hmiss item hmem).2
  have hfound : scanFoundIndex st.excelCheckItems (sanitizeScanQuery (jsTrim st.scanQuery)) = none := by
    simp only [scanFoundIndex, h1, h2]
  simp [handleScanSubmit, hq, hfound]

/-- C10 witness: scanning `" zz "` against a record set keyed `"A1"` leaves
the record and the highlight index unchanged and sets the error status with
the trimmed raw query. -/
theorem failed_scan_atomic_witness :
    handleScanSubmit
      { excelCheckItems := [⟨"A1", "Item", some 5, none, none, "N/A"⟩]
        scanQuery := " zz "
        scanStatus := ⟨.idle, "m"⟩
        lastScannedIndex := none } =
      { excelCheckItems := [⟨"A1", "Item", some 5, none, none, "N/A"⟩]
        scanQuery := ""
        scanStatus := ⟨.error, "Không tìm thấy sản phẩm với mã: zz"⟩
        lastScannedIndex := none } := by
  rw [failed_scan_atomic _ (by decide) (by decide)]
  decide

end DataHome

namespace DataHome

/-- Replacing one record with one carrying the same product code and IMEI
leaves the scan resolution unchanged — the two-stage lookup reads only
those two fields. -/
theorem scanFoundIndex_set_invariant (items : List ExcelCheckItem) (i : Nat)
    (a u : ExcelCheckItem) (q : String) (hi : items.get? i = some a)
    (hpc : u.productCode = a.productCode) (him : u.imei = a.imei) :
    scanFoundIndex (items.set i u) q = scanFoundIndex items q := by
  have h1 := findIdx?_set_congr (fun item => cleanString (some item.productCode) == q) items i u 0
    (fun b hb => by rw [hi] at hb; cases hb; simp only [hpc])
  have h2 := findIdx?_set_congr (fun item => cleanString item.imei == q) items i u 0
    (fun b hb => by rw [hi] at hb; cases hb; simp only [him])
  simp only [scanFoundIndex, h1, h2]

/-- A scan whose sanitized query resolves to index `i` replaces exactly the
record at `i`, incrementing its `actualQuantity` from `x` to `(x || 0) + 1`. -/
theorem scanStep_hit (st : ExcelCheckState) (q : String) (i : Nat) (b : ExcelCheckItem)
    (hq : (jsTrim q).isEmpty = false)
    (hfound : scanFoundIndex st.excelCheckItems (sanitizeScanQuery (jsTrim q)) = some i)
    (hib : st.excelCheckItems.get? i = some b) :
    (scanStep st q).excelCheckItems =
      st.excelCheckItems.set i { b with actualQuantity := some (jsOrZero b.actualQuantity + 1) } := by
  have hib2 : st.excelCheckItems[i]? = some b := by
    rw [← List.get?_eq_getElem?]
    exact hib
  simp [scanStep, handleScanSubmit, hq, hfound, hib2]

/-- Iterating the same resolving scan accumulates into the resolved slot:
from a state whose items are `items` with slot `i` holding count `k`, `n`
further scans leave `items` with slot `i` holding `k + n`. -/
theorem scanN_accumulates (items : List ExcelCheckItem) (q : String) (i : Nat)
    (a : ExcelCheckItem)
    (hq : (jsTrim q).isEmpty = false)
    (hfound : scanFoundIndex items (sanitizeScanQuery (jsTrim q)) = some i)
    (hi : items.get? i = some a) :
    ∀ (n : Nat) (k : Int) (st : ExcelCheckState),
      st.excelCheckItems = items.set i { a with actualQuantity := some k } →
      (scanN st q n).excelCheckItems = items.set i { a with actualQuantity := some (k + n) } := by
  intro n
  induction n with
  | zero => intro k st hst; simpa using hst
  | succ n ih =>
    intro k st hst
    have hfound' : scanFoundIndex st.excelCheckItems (sanitizeScanQuery (jsTrim q)) = some i := by
      rw [hst,
        scanFoundIndex_set_invariant items i a { a with actualQuantity := some k } _ hi rfl rfl]
      exact hfound
    have hlen : i < items.length := by
      rcases List.get?_eq_some.mp hi with ⟨h, _⟩
      exact h
    have hget : st.excelCheckItems.get? i = some { a with actualQuantity := some k } := by
      rw [hst, List.get?_eq_getElem?, List.getElem?_set, if_pos rfl, if_pos hlen]
    have hstep : (scanStep st q).excelCheckItems =
        items.set i { a with actualQuantity := some (k + 1) } := by
      rw [scanStep_hit st q i _ hq hfound' hget, hst, List.set_set]
      rfl
    have hmain := ih (k + 1) (scanStep st q) hstep
    have : (scanN st q (n + 1)) = scanN (scanStep st q) q n := rfl
    rw [this, hmain]
    congr 2
    push_cast
    ring_nf

/-- C5: in count mode, starting from the loaded (all-`null`) state, if a
non-empty scan query sanitizes to the record at index `i` — the matched
record, whose cleaned product code equals the sanitized query — and that
record's `actualQuantity` is `null`, then submitting that query `N ≥ 1`
times yields `actualQuantity = N` on exactly that record (the first scan
initializes `null` to `1`, each further scan adds `1`). -/
theorem scan_same_key_counts (items : List ExcelCheckItem) (q : String) (i : Nat)
    (a : ExcelCheckItem) (N : Nat) (hN : 1 ≤ N)
    (hq : (jsTrim q).isEmpty = false)
    (hfound : scanFoundIndex items (sanitizeScanQuery (jsTrim q)) = some i)
    (hpc : cleanString (some a.productCode) = sanitizeScanQuery (jsTrim q))
    (hi : items.get? i = some a) (hinit : a.actualQuantity = none)
    (st : ExcelCheckState) (hst : st.excelCheckItems = items) :
    (scanN st q N).excelCheckItems.get? i = some { a with actualQuantity := some (N : Int) } := by
  obtain ⟨n, rfl⟩ : ∃ n, N = n + 1 := ⟨N - 1, by omega⟩
  have hlen : i < items.length := by
    rcases List.get?_eq_some.mp hi with ⟨h, _⟩
    exact h
  have hstep1 : (scanStep st q).excelCheckItems =
      items.set i { a with actualQuantity := some 1 } := by
    rw [scanStep_hit st q i a hq (by rw [hst]; exact hfound) (by rw [hst]; exact hi), hst, hinit]
    rfl
  have hmain := scanN_accumulates items q i a hq hfound hi n 1 (scanStep st q) hstep1
  have hrw : scanN st q (n + 1) = scanN (scanStep st q) q n := rfl
  rw [hrw, hmain, List.get?_eq_getElem?, List.getElem?_set, if_pos rfl, if_pos hlen]
  congr 2
  push_cast
  ring_nf

/-- C5 witness: scanning `"A1"` three times against a single record keyed
`"A1"` with expected quantity `5` and initial `null` actual yields
`actualQuantity = 3`. -/
theorem scan_same_key_counts_witness :
    (scanN ⟨[⟨"A1", "A", some 5, none, none, "c"⟩], "", ⟨.idle, ""⟩, none⟩ "A1" 3).excelCheckItems.get? 0
      = some ⟨"A1", "A", some 5, some 3, none, "c"⟩ := by
  have h := scan_same_key_counts [⟨"A1", "A", some 5, none, none, "c"⟩] "A1" 0
    ⟨"A1", "A", some 5, none, none, "c"⟩ 3 (by decide) (by decide) (by decide) (by decide)
    (by decide) rfl ⟨[⟨"A1", "A", some 5, none, none, "c"⟩], "", ⟨.idle, ""⟩, none⟩ rfl
  simpa using h

end DataHome

namespace DataHome

/-- C8: when two loaded records share a normalized primary key, exact-key
lookup (the count-mode resolver's product-code stage, a `findIndex`)
resolves to the first occurrence in load order — some index `m ≤ i` whose
record matches, with no earlier match — while the later duplicate stays in
the full ordered record list and remains reachable by iteration and by
filtering on the shared key. -/
theorem duplicate_keys_first_wins (items : List ExcelCheckItem) (k : String) (i j : Nat)
    (a b : ExcelCheckItem) (hij : i < j)
    (hi : items.get? i = some a) (hj : items.get? j = some b)
    (hak : cleanString (some a.productCode) = k) (hbk : cleanString (some b.productCode) = k) :
    ∃ m c, scanFoundIndex items k = some m ∧ m ≤ i ∧ items.get? m = some c ∧
      cleanString (some c.productCode) = k ∧
      (∀ n d, n < m → items.get? n = some d → cleanString (some d.productCode) ≠ k) ∧
      b ∈ items ∧
      b ∈ items.filter (fun it => cleanString (some it.productCode) == k) := by
  obtain ⟨m, c, hfind, hmi, hc, hpc, hmin⟩ :=
    findIdx?_first_match (fun it => cleanString (some it.productCode) == k) items i a hi
      (by simp [hak])
  refine ⟨m, c, ?_, hmi, hc, by simpa using hpc, ?_, List.get?_mem hj, ?_⟩
  · simp only [scanFoundIndex, hfind]
  · intro n d hn hd heq
    have := hmin n d hn hd
    simp [heq] at this
  · exact List.mem_filter.mpr ⟨List.get?_mem hj, by simp [hbk]⟩

/-- C8 witness: two records keyed `"A1"` at indices 0 and 2 — lookup
resolves to index 0, and the later duplicate is still in the list and in
the key-filtered sublist. -/
theorem duplicate_keys_first_wins_witness :
    ∃ (m : Nat) (c : ExcelCheckItem),
      scanFoundIndex
        [⟨"A1", "first", some 1, none, none, "x"⟩,
         ⟨"B2", "other", some 1, none, none, "x"⟩,
         ⟨"A1", "second", some 1, none, none, "x"⟩] "a1" = some m ∧
      m ≤ 0 ∧
      [⟨"A1", "first", some 1, none, none, "x"⟩,
       ⟨"B2", "other", some 1, none, none, "x"⟩,
       ⟨"A1", "second", some 1, none, none, "x"⟩].get? m = some c ∧
      cleanString (some c.productCode) = "a1" ∧
      (∀ n d, n < m →
        [⟨"A1", "first", some 1, none, none, "x"⟩,
         ⟨"B2", "other", some 1, none, none, "x"⟩,
         (⟨"A1", "second", some 1, none, none, "x"⟩ : ExcelCheckItem)].get? n = some d →
        cleanString (some d.productCode) ≠ "a1") ∧
      (⟨"A1", "second", some 1, none, none, "x"⟩ : ExcelCheckItem) ∈
        [⟨"A1", "first", some 1, none, none, "x"⟩,
         ⟨"B2", "other", some 1, none, none, "x"⟩,
         ⟨"A1", "second", some 1, none, none, "x"⟩] ∧
      (⟨"A1", "second", some 1, none, none, "x"⟩ : ExcelCheckItem) ∈
        ([⟨"A1", "first", some 1, none, none, "x"⟩,
          ⟨"B2", "other", some 1, none, none, "x"⟩,
          ⟨"A1", "second", some 1, none, none, "x"⟩].filter
            (fun it => cleanString (some it.productCode) == "a1")) :=
  duplicate_keys_first_wins _ "a1" 0 2
    ⟨"A1", "first", some 1, none, none, "x"⟩ ⟨"A1", "second", some 1, none, none, "x"⟩
    (by decide) rfl rfl (by decide) (by decide)

/-- C1 (amended): the resolvers do NOT give the alternate key precedence.
Count-mode scan gives the primary key precedence: whenever some record's
cleaned product code equals the sanitized query, the scan resolves to the
first such record — even when another record's IMEI also matches — and the
IMEI stage is consulted only when no product code matches.  Free-text
search has no key-type priority at all: it returns the first record in
load order matching either key. -/
theorem scan_resolves_primary_key_first :
    (∀ (items : List ExcelCheckItem) (q : String) (i j : Nat) (a b : ExcelCheckItem),
      items.get? i = some a → cleanString (some a.productCode) = q →
      items.get? j = some b → cleanString b.imei = q →
      ∃ m c, scanFoundIndex items q = some m ∧ m ≤ i ∧ items.get? m = some c ∧
        cleanString (some c.productCode) = q) ∧
    (∀ (sitems : List InventoryItem) (q : String) (i : Nat) (a : InventoryItem),
      sitems.get? i = some a → searchKeyMatch q a = true →
      (∀ n d, n < i → sitems.get? n = some d → searchKeyMatch q d = false) →
      searchFoundItem sitems q = some a) := by
  constructor
  · intro items q i j a b hi hak hj hbk
    obtain ⟨m, c, hfind, hmi, hc, hpc, _⟩ :=
      findIdx?_first_match (fun it => cleanString (some it.productCode) == q) items i a hi
        (by simp [hak])
    exact ⟨m, c, by simp only [scanFoundIndex, hfind], hmi, hc, by simpa using hpc⟩
  · intro sitems q i a hi hmatch hmin
    have hfind : sitems.find? (searchKeyMatch q) = some a :=
      find?_first (searchKeyMatch q) sitems i a hi hmatch hmin
    simp only [searchFoundItem, hfind]

/-- C1 (counterexample): a query that exactly matches record 1's IMEI
(alternate key) and record 0's product code (primary key).  The claim
requires both resolvers to return the alternate-key record (index 1); the
scan instead increments record 0 and the search instead records record 0
(`"Item0"`). -/
theorem alternate_key_precedence_counterexample :
    ((handleScanSubmit
        { excelCheckItems := [⟨"X", "P0", some 1, none, none, "N/A"⟩,
                              ⟨"Y", "P1", some 1, none, some "X", "N/A"⟩]
          scanQuery := "X"
          scanStatus := ⟨.idle, ""⟩
          lastScannedIndex := none }).excelCheckItems.map (fun it => it.actualQuantity)
      = [some 1, none]) ∧
    cleanString (some ("X" : String)) = sanitizeScanQuery (jsTrim "X") ∧
    cleanString (some ("Y" : String)) ≠ sanitizeScanQuery (jsTrim "X") ∧
    ((handleSearchSubmit
        { inventoryItems := [⟨"X", "X", "Item0", some 1, 0, false, false, "N/A", "N/A"⟩,
                             ⟨"X", "Y", "Item1", some 1, 0, false, true, "N/A", "N/A"⟩]
          searchQuery := "X"
          searchHistory := [] }).searchHistory.map
            (fun p => (p.1, p.2.map (fun it => it.productName)))
      = [("X", some "Item0")]) := by
  refine ⟨by decide, by decide, by decide, by decide⟩

/-- C1 witness: with record 0 keyed `"X"` by product code and record 1
carrying IMEI `"X"`, the scan resolver picks index 0, whose product code
matches. -/
theorem scan_resolves_primary_key_first_witness :
    ∃ (m : Nat) (c : ExcelCheckItem),
      scanFoundIndex
        [⟨"X", "P0", some 1, none, none, "N/A"⟩,
         ⟨"Y", "P1", some 1, none, some "X", "N/A"⟩] "x" = some m ∧
      m ≤ 0 ∧
      [⟨"X", "P0", some 1, none, none, "N/A"⟩,
       (⟨"Y", "P1", some 1, none, some "X", "N/A"⟩ : ExcelCheckItem)].get? m = some c ∧
      cleanString (some c.productCode) = "x" :=
  scan_resolves_primary_key_first.1
    [⟨"X", "P0", some 1, none, none, "N/A"⟩, ⟨"Y", "P1", some 1, none, some "X", "N/A"⟩]
    "x" 0 1 ⟨"X", "P0", some 1, none, none, "N/A"⟩ ⟨"Y", "P1", some 1, none, some "X", "N/A"⟩
    rfl (by decide) rfl (by decide)

end DataHome

namespace DataHome

/-- A successful range search of `handleCheckItem` returns an in-range
index of the searched list holding an unchecked record. -/
theorem findUncheckedInRange_some (l : List (Nat × InventoryItem)) (lo hi idx : Nat)
    (h : findUncheckedInRange l lo hi = some idx) :
    ∃ p, l.get? idx = some p ∧ p.2.checked = false := by
  have hp := List.find?_some h
  cases hg : l.get? idx with
  | none => rw [hg] at hp; exact absurd hp (by simp)
  | some p =>
    rw [hg] at hp
    exact ⟨p, rfl, by simpa using hp⟩

/-- When every record of the searched list is checked, the range search of
`handleCheckItem` finds nothing. -/
theorem findUncheckedInRange_none_of_all_checked (l : List (Nat × InventoryItem)) (lo hi : Nat)
    (hall : ∀ p ∈ l, p.2.checked = true) : findUncheckedInRange l lo hi = none := by
  unfold findUncheckedInRange
  rw [List.find?_eq_none]
  intro x _
  cases hg : l.get? x with
  | none => simp [hg]
  | some p => simp [hg, hall p (List.get?_mem hg)]

/-- C7: the next-unverified navigation of `handleCheckItem` — locate the
toggled record in the post-toggle filtered subset and search forward with
wrap-around for the first unchecked record — always lands inside the
currently active filtered subset, on an unverified record; when every
record of the filtered subset is verified, or the active filters exclude
the toggled record, navigation is a no-op. -/
theorem next_unverified_in_filtered_subset (items : List InventoryItem) (f : Filters) (oi : Nat) :
    (∀ t, handleCheckItemTarget items f oi = some t →
      ∃ p, p ∈ filteredItems (toggleChecked items oi) f ∧ p.1 = t ∧ p.2.checked = false) ∧
    ((∀ p ∈ filteredItems (toggleChecked items oi) f, p.2.checked = true) →
      handleCheckItemTarget items f oi = none) ∧
    ((filteredItems (toggleChecked items oi) f).findIdx? (fun p => p.1 == oi) = none →
      handleCheckItemTarget items f oi = none) := by
  refine ⟨?_, ?_, ?_⟩
  · intro t ht
    simp only [handleCheckItemTarget] at ht
    cases h1 : (filteredItems (toggleChecked items oi) f).findIdx? (fun p => p.1 == oi) with
    | none =>
      simp only [h1] at ht
      exact absurd ht (by simp)
    | some cur =>
      simp only [h1] at ht
      cases h2 : findUncheckedInRange (filteredItems (toggleChecked items oi) f) (cur + 1)
          (filteredItems (toggleChecked items oi) f).length with
      | some idx =>
        simp only [h2] at ht
        obtain ⟨p, hg, hc⟩ := findUncheckedInRange_some _ _ _ _ h2
        rw [hg] at ht
        exact ⟨p, List.get?_mem hg, by simpa using ht, hc⟩
      | none =>
        simp only [h2] at ht
        cases h3 : findUncheckedInRange (filteredItems (toggleChecked items oi) f) 0 cur with
        | some idx =>
          simp only [h3] at ht
          obtain ⟨p, hg, hc⟩ := findUncheckedInRange_some _ _ _ _ h3
          rw [hg] at ht
          exact ⟨p, List.get?_mem hg, by simpa using ht, hc⟩
        | none =>
          simp only [h3] at ht
          exact absurd ht (by simp)
  · intro hall
    simp only [handleCheckItemTarget]
    cases h1 : (filteredItems (toggleChecked items oi) f).findIdx? (fun p => p.1 == oi) with
    | none => simp only [h1]
    | some cur =>
      simp only [h1, findUncheckedInRange_none_of_all_checked _ _ _ hall]
  · intro h
    simp only [handleCheckItemTarget, h]

/-- C7 witness: two unchecked records under pass-all filters; toggling
index 0 navigates to the filtered-subset member with original index 1,
which is unverified. -/
theorem next_unverified_in_filtered_subset_witness :
    ∃ p, p ∈ filteredItems
        (toggleChecked
          [⟨"A", "A", "P0", some 1, 0, false, false, "s", "c"⟩,
           ⟨"B", "B", "P1", some 1, 0, false, false, "s", "c"⟩] 0)
        ⟨"all", "all", "all"⟩ ∧ p.1 = 1 ∧ p.2.checked = false :=
  (next_unverified_in_filtered_subset
    [⟨"A", "A", "P0", some 1, 0, false, false, "s", "c"⟩,
     ⟨"B", "B", "P1", some 1, 0, false, false, "s", "c"⟩]
    ⟨"all", "all", "all"⟩ 0).1 1 (by decide)

end DataHome

namespace DataHome

/-- Adding `0` is neutral for NaN-propagating addition. -/
theorem jsAdd_zero (t : Option Int) : jsAdd t (some 0) = t := by
  cases t <;> simp [jsAdd]

/-- `NaN` on the left absorbs. -/
theorem jsAdd_none_left (x : Option Int) : jsAdd none x = none := rfl

/-- `NaN` on the right absorbs. -/
theorem jsAdd_none_right (t : Option Int) : jsAdd t none = none := by
  cases t <;> rfl

/-- Reassociation of two non-NaN additions. -/
theorem jsAdd_add (t : Option Int) (v s : Int) :
    jsAdd (jsAdd t (some v)) (some s) = jsAdd t (some (v + s)) := by
  cases t <;> simp [jsAdd] <;> ring

/-- An uncounted record contributes only its file quantity to the
accumulator. -/
theorem excelCheckStatsStep_none (acc : ExcelCheckStats) (item : ExcelCheckItem)
    (h : item.actualQuantity = none) :
    excelCheckStatsStep acc item =
      { acc with totalFileQuantity := jsAdd acc.totalFileQuantity item.fileQuantity } := by
  simp [excelCheckStatsStep, h]

/-- A counted record with zero difference contributes its quantities and
one matched count. -/
theorem excelCheckStatsStep_matched (acc : ExcelCheckStats) (item : ExcelCheckItem) (a : Int)
    (h : item.actualQuantity = some a)
    (hd : (jsSub (some a) item.fileQuantity == some 0) = true) :
    excelCheckStatsStep acc item =
      { totalFileQuantity := jsAdd acc.totalFileQuantity item.fileQuantity
        totalActualQuantity := acc.totalActualQuantity + a
        matchedCount := acc.matchedCount + 1
        mismatchedCount := acc.mismatchedCount } := by
  simp [excelCheckStatsStep, h, hd]

/-- A counted record with nonzero (or NaN) difference contributes its
quantities and one mismatched count. -/
theorem excelCheckStatsStep_mismatched (acc : ExcelCheckStats) (item : ExcelCheckItem) (a : Int)
    (h : item.actualQuantity = some a)
    (hd : (jsSub (some a) item.fileQuantity == some 0) = false) :
    excelCheckStatsStep acc item =
      { totalFileQuantity := jsAdd acc.totalFileQuantity item.fileQuantity
        totalActualQuantity := acc.totalActualQuantity + a
        matchedCount := acc.matchedCount
        mismatchedCount := acc.mismatchedCount + 1 } := by
  simp [excelCheckStatsStep, h, hd]

/-- The `reduce` of `excelCheckStats`, from any accumulator, component by
component: actual total over counted records, matched and mismatched
counts, and NaN-propagating expected total. -/
theorem excelCheckStats_foldl (items : List ExcelCheckItem) :
    ∀ acc : ExcelCheckStats,
      (items.foldl excelCheckStatsStep acc).totalActualQuantity
          = acc.totalActualQuantity + (items.filterMap (fun it => it.actualQuantity)).sum ∧
      (items.foldl excelCheckStatsStep acc).matchedCount
          = acc.matchedCount
            + items.countP (fun it => jsSub it.actualQuantity it.fileQuantity == some 0) ∧
      (items.foldl excelCheckStatsStep acc).mismatchedCount
          = acc.mismatchedCount
            + items.countP (fun it =>
                it.actualQuantity.isSome && !(jsSub it.actualQuantity it.fileQuantity == some 0)) ∧
      (items.foldl excelCheckStatsStep acc).totalFileQuantity
          = (if items.all (fun it => it.fileQuantity.isSome)
             then jsAdd acc.totalFileQuantity
                    (some ((items.filterMap (fun it => it.fileQuantity)).sum))
             else none) := by
  induction items with
  | nil => intro acc; simp [jsAdd_zero]
  | cons item rest ih =>
    intro acc
    rw [List.foldl_cons]
    obtain ⟨ihA, ihM, ihMM, ihF⟩ := ih (excelCheckStatsStep acc item)
    have hfile : (excelCheckStatsStep acc item).totalFileQuantity
        = jsAdd acc.totalFileQuantity item.fileQuantity := by
      rcases h : item.actualQuantity with _ | a
      · rw [excelCheckStatsStep_none acc item h]
      · rcases hd : (jsSub (some a) item.fileQuantity == some 0) with _ | _
        · rw [excelCheckStatsStep_mismatched acc item a h hd]
        · rw [excelCheckStatsStep_matched acc item a h hd]
    have hF : (rest.foldl excelCheckStatsStep (excelCheckStatsStep acc item)).totalFileQuantity
        = (if (item :: rest).all (fun it => it.fileQuantity.isSome)
           then jsAdd acc.totalFileQuantity
                  (some (((item :: rest).filterMap (fun it => it.fileQuantity)).sum))
           else none) := by
      rw [ihF, hfile]
      rcases hfq : item.fileQuantity with _ | v
      · simp only [List.all_cons, hfq, Option.isSome_none, Bool.false_and, if_neg Bool.false_ne_true,
          jsAdd_none_right, jsAdd_none_left]
        split <;> rfl
      · simp only [List.all_cons, hfq, Option.isSome_some, Bool.true_and, List.filterMap_cons]
        by_cases hall : rest.all (fun it => it.fileQuantity.isSome) = true
        · simp [hall, jsAdd_add]
        · simp [hall]
    refine ⟨?_, ?_, ?_, hF⟩
    · rw [ihA]
      rcases h : item.actualQuantity with _ | a
      · rw [excelCheckStatsStep_none acc item h]
        simp [List.filterMap_cons, h]
      · rcases hd : (jsSub (some a) item.fileQuantity == some 0) with _ | _
        · rw [excelCheckStatsStep_mismatched acc item a h hd]
          simp [List.filterMap_cons, h]
          ring
        · rw [excelCheckStatsStep_matched acc item a h hd]
          simp [List.filterMap_cons, h]
          ring
    · rw [ihM]
      rcases h : item.actualQuantity with _ | a
      · rw [excelCheckStatsStep_none acc item h]
        simp [List.countP_cons, h, jsSub]
      · rcases hd : (jsSub (some a) item.fileQuantity == some 0) with _ | _
        · rw [excelCheckStatsStep_mismatched acc item a h hd]
          simp [List.countP_cons, h, hd]
        · rw [excelCheckStatsStep_matched acc item a h hd]
          simp [List.countP_cons, h, hd]
          omega
    · rw [ihMM]
      rcases h : item.actualQuantity with _ | a
      · rw [excelCheckStatsStep_none acc item h]
        simp [List.countP_cons, h]
      · rcases hd : (jsSub (some a) item.fileQuantity == some 0) with _ | _
        · rw [excelCheckStatsStep_mismatched acc item a h hd]
          simp [List.countP_cons, h, hd]
          omega
        · rw [excelCheckStatsStep_matched acc item a h hd]
          simp [List.countP_cons, h, hd]

/-- C3 (amended): on the spec's example — two records expecting 5 and 3,
each scanned three times — the aggregator reports totalExpected = 8,
totalActual = 6, matched = 1 and ONE combined mismatched record (here a
deficit of 2); in general it produces the expected total over all records
(NaN-propagating), the actual total over records with non-null actual, a
matched count, and a single mismatched count that does not separate
surplus from deficit. -/
theorem discrepancy_aggregator_stats :
    (excelCheckStats
        (scanMany
          { excelCheckItems := [⟨"A1", "Item A1", some 5, none, none, "N/A"⟩,
                                ⟨"B2", "Item B2", some 3, none, none, "N/A"⟩]
            scanQuery := ""
            scanStatus := ⟨.idle, ""⟩
            lastScannedIndex := none }
          ["A1", "A1", "A1", "B2", "B2", "B2"]).excelCheckItems
      = { totalFileQuantity := some 8, totalActualQuantity := 6,
          matchedCount := 1, mismatchedCount := 1 }) ∧
    ∀ items : List ExcelCheckItem,
      (excelCheckStats items).totalActualQuantity
          = (items.filterMap (fun it => it.actualQuantity)).sum ∧
      (excelCheckStats items).matchedCount
          = items.countP (fun it => jsSub it.actualQuantity it.fileQuantity == some 0) ∧
      (excelCheckStats items).mismatchedCount
          = items.countP (fun it =>
              it.actualQuantity.isSome && !(jsSub it.actualQuantity it.fileQuantity == some 0)) ∧
      (excelCheckStats items).totalFileQuantity
          = (if items.all (fun it => it.fileQuantity.isSome)
             then some ((items.filterMap (fun it => it.fileQuantity)).sum)
             else none) := by
  refine ⟨by decide, fun items => ?_⟩
  obtain ⟨hA, hM, hMM, hF⟩ := excelCheckStats_foldl items
    { totalFileQuantity := some 0, totalActualQuantity := 0, matchedCount := 0, mismatchedCount := 0 }
  refine ⟨by simpa using hA, by simpa using hM, by simpa using hMM, ?_⟩
  rw [excelCheckStats, hF]
  split <;> simp [jsAdd]

/-- C3 (counterexample): the aggregator output does not determine the
deficit count — two record sets with different numbers of deficit records
(2 versus 1, per the spec's own classification) produce identical
aggregator results, so the aggregator does not produce separate surplus
and deficit counts. -/
theorem aggregator_no_deficit_count_counterexample :
    excelCheckStats
        [⟨"a", "a", some 1, some 3, none, "c"⟩,
         ⟨"b", "b", some 2, some 1, none, "c"⟩,
         ⟨"c", "c", some 2, some 1, none, "c"⟩]
      = excelCheckStats
        [⟨"a", "a", some 1, some 2, none, "c"⟩,
         ⟨"b", "b", some 1, some 2, none, "c"⟩,
         ⟨"c", "c", some 3, some 1, none, "c"⟩] ∧
    specDeficitCount
        [⟨"a", "a", some 1, some 3, none, "c"⟩,
         ⟨"b", "b", some 2, some 1, none, "c"⟩,
         ⟨"c", "c", some 2, some 1, none, "c"⟩] = 2 ∧
    specDeficitCount
        [⟨"a", "a", some 1, some 2, none, "c"⟩,
         ⟨"b", "b", some 1, some 2, none, "c"⟩,
         ⟨"c", "c", some 3, some 1, none, "c"⟩] = 1 := by
  refine ⟨by decide, by decide, by decide⟩

end DataHome
